import Mathlib

/-!
Shallow embedding of the session/context management and proactive-trigger
engine of the tgbot-chat-companion repository (src/db.py, src/bot.py).

The SQLite-backed `Database` class is modelled as an explicit state
(`DB`): the `sessions` and `messages` relations are lists kept in
insertion order, and the `AUTOINCREMENT` row-id counters are the
`nextSessionId` / `nextMessageId` fields (SQLite assigns strictly
increasing row ids, so insertion order coincides with id order and
`ORDER BY id DESC` is list reversal).  Timestamps are rationals
(seconds); the opaque `meta_json` payload is an uninterpreted
`Option String`.  The wall clock (`_utc_now_iso`) is threaded as an
explicit `now` argument.  The LLM client is an external collaborator:
a function from the prompt to `Option (text, meta)`, `none` meaning
`LLMError`.
-/

namespace TgBot

/-- A row of the `messages` table (db.py, `init`/`add_message`). -/
structure Msg where
  id : Nat
  sessionId : Nat
  role : String
  content : String
  createdAt : ℚ
  metaJson : Option String
  isProactive : Bool
deriving Repr, DecidableEq

/-- A row of the `sessions` table (db.py, `init`). -/
structure Session where
  id : Nat
  owner : Int
  createdAt : ℚ
  isActive : Bool
deriving Repr, DecidableEq

/-- The persistent store: both tables plus the AUTOINCREMENT counters. -/
structure DB where
  sessions : List Session
  messages : List Msg
  nextSessionId : Nat
  nextMessageId : Nat
deriving Repr, DecidableEq

/-- `ChatMessage` dataclass of db.py. -/
structure ChatMessage where
  role : String
  content : String
deriving Repr, DecidableEq

/-- A freshly initialised store (`Database.init` on a new file):
empty tables, SQLite row ids start at 1. -/
def DB.init : DB := ⟨[], [], 1, 1⟩

/-- `SELECT ... FROM sessions WHERE owner_telegram_id = ? AND is_active = 1
ORDER BY id DESC LIMIT 1`.  Row ids increase in insertion order, so the
highest-id matching row is the last matching list element. -/
def activeSession (db : DB) (owner : Int) : Option Session :=
  (db.sessions.filter (fun s => s.owner == owner && s.isActive)).getLast?

/-- `Database.create_new_session`: deactivate every active session of the
owner, then insert a fresh active session; returns the new row id. -/
def create_new_session (db : DB) (now : ℚ) (owner : Int) : DB × Nat :=
  let deactivated := db.sessions.map (fun s =>
    if s.owner == owner && s.isActive then { s with isActive := false } else s)
  let sid := db.nextSessionId
  (⟨deactivated ++ [⟨sid, owner, now, true⟩], db.messages, sid + 1, db.nextMessageId⟩, sid)

/-- `Database.get_or_create_active_session`: return the active session's id
if one exists, otherwise create one. -/
def get_or_create_active_session (db : DB) (now : ℚ) (owner : Int) : DB × Nat :=
  match activeSession db owner with
  | some s => (db, s.id)
  | none => create_new_session db now owner

/-- `Database.add_message`: insert a message row with a server-assigned
timestamp and the next row id; returns the new row id. -/
def add_message (db : DB) (now : ℚ) (sessionId : Nat) (role content : String)
    (metaJson : Option String) (isProactive : Bool) : DB × Nat :=
  let mid := db.nextMessageId
  (⟨db.sessions,
    db.messages ++ [⟨mid, sessionId, role, content, now, metaJson, isProactive⟩],
    db.nextSessionId, mid + 1⟩, mid)

/-- The rows selected by `Database.get_context_messages` before ordering:
`WHERE session_id = ? AND role IN ('user', 'assistant')`, in id
(chronological) order. -/
def context_pool (db : DB) (sessionId : Nat) : List Msg :=
  db.messages.filter (fun m =>
    m.sessionId == sessionId && (m.role == "user" || m.role == "assistant"))

/-- `Database.get_context_messages`: the query returns matching rows
`ORDER BY id DESC LIMIT ?` (reverse, take), and the Python code reverses
that back to chronological order before projecting to `ChatMessage`. -/
def get_context_messages (db : DB) (sessionId : Nat) (limit : Nat) : List ChatMessage :=
  (((context_pool db sessionId).reverse.take limit).reverse).map (fun m => ⟨m.role, m.content⟩)

/-- `Database.get_last_user_message`: highest-id row of the session with
`role = 'user'`, or `none`. -/
def get_last_user_message (db : DB) (sessionId : Nat) : Option Msg :=
  (db.messages.filter (fun m => m.sessionId == sessionId && m.role == "user")).getLast?

/-- `Database.has_proactive_after`: does the session contain an assistant
message with `is_proactive = 1` and id strictly greater than `messageId`? -/
def has_proactive_after (db : DB) (sessionId : Nat) (messageId : Nat) : Bool :=
  db.messages.any (fun m =>
    m.sessionId == sessionId && m.role == "assistant" && m.isProactive
      && decide (messageId < m.id))

/-- The health snapshot produced by `Database.health`. -/
structure Health where
  activeSessionId : Option Nat
  activeSessionCreatedAt : Option ℚ
  totalMessages : Nat
deriving Repr, DecidableEq

/-- `Database.health`: the active session's id and creation time for the
given owner, and `SELECT COUNT(*) FROM messages` over the whole table. -/
def health (db : DB) (owner : Int) : Health :=
  match activeSession db owner with
  | some s => ⟨some s.id, some s.createdAt, db.messages.length⟩
  | none => ⟨none, none, db.messages.length⟩

/-- `_deterministic_idle_seconds` (bot.py): the required idle threshold in
seconds, a pure function of the message id and the configured hour bounds. -/
def deterministic_idle_seconds (messageId : Nat) (minHours maxHours : ℚ) : ℚ :=
  if minHours = maxHours then minHours * 3600
  else
    let span := maxHours - minHours
    let hashed : Nat := (messageId * 2654435761) % 1000
    let ratio : ℚ := (hashed : ℚ) / 999
    (minHours + span * ratio) * 3600

/-- The configuration fields consumed by the proactive job (config.py
`Settings`, restricted to what `proactive_check_job` reads). -/
structure Settings where
  ownerTelegramId : Int
  autoMessageEnabled : Bool
  idleHoursMin : ℚ
  idleHoursMax : ℚ
  maxContextMessages : Nat
  systemPrompt : String

/-- The external generation contract (`PolzaLLMClient.generate`): maps the
prompt to `some (text, meta)` on success, `none` on `LLMError`. -/
def LLMGen : Type := List ChatMessage → Option (String × String)

/-- The synthetic instruction appended to the proactive prompt. -/
def proactiveInstruction : String :=
  "Был длительный перерыв в переписке. " ++
  "Напиши короткое тёплое сообщение первой (1-2 предложения, без навязчивости), " ++
  "чтобы мягко начать диалог снова."

/-- The prompt `proactive_check_job` builds: system prompt, recent context,
then the synthetic user instruction. -/
def proactive_prompt (settings : Settings) (db : DB) (sessionId : Nat) : List ChatMessage :=
  ⟨"system", settings.systemPrompt⟩ ::
    (get_context_messages db sessionId settings.maxContextMessages ++
      [⟨"user", proactiveInstruction⟩])

/-- `proactive_check_job` (bot.py): one scheduler tick.  Returns the store
after the tick and the text handed to the delivery transport (`none` when
nothing is sent).  `gen` is the external generation contract; delivery
failure does not affect the store, so it is not modelled. -/
def proactive_check_job (settings : Settings) (db : DB) (now : ℚ) (gen : LLMGen) :
    DB × Option String :=
  if !settings.autoMessageEnabled then (db, none)
  else
    let r := get_or_create_active_session db now settings.ownerTelegramId
    let db1 := r.1
    let sessionId := r.2
    match get_last_user_message db1 sessionId with
    | none => (db1, none)
    | some lastUser =>
      if has_proactive_after db1 sessionId lastUser.id then (db1, none)
      else
        let idleSeconds := now - lastUser.createdAt
        let requiredIdleSeconds :=
          deterministic_idle_seconds lastUser.id settings.idleHoursMin settings.idleHoursMax
        if idleSeconds < requiredIdleSeconds then (db1, none)
        else
          match gen (proactive_prompt settings db1 sessionId) with
          | none => (db1, none)
          | some tm =>
            let r2 := add_message db1 now sessionId "assistant" tm.1 (some tm.2) true
            (r2.1, some tm.1)

/-- The store-mutating operations reachable from the bot's handlers:
`get_or_create_active_session` (any handler), `create_new_session`
(the /reset command) and `add_message` (message handlers / proactive job). -/
inductive Op
  | getOrCreate (now : ℚ) (owner : Int)
  | startNew (now : ℚ) (owner : Int)
  | append (now : ℚ) (sessionId : Nat) (role content : String)
      (meta : Option String) (proactive : Bool)

/-- Apply one operation to the store (discarding the returned id). -/
def applyOp (db : DB) : Op → DB
  | Op.getOrCreate now owner => (get_or_create_active_session db now owner).1
  | Op.startNew now owner => (create_new_session db now owner).1
  | Op.append now sid role content meta pa => (add_message db now sid role content meta pa).1

/-- Run a sequence of operations from a freshly initialised store. -/
def runOps (ops : List Op) : DB := ops.foldl applyOp DB.init

/-- Number of active sessions of an owner. -/
def activeCount (db : DB) (owner : Int) : Nat :=
  (db.sessions.filter (fun s => s.owner == owner && s.isActive)).length

/-- The session ids belonging to an owner. -/
def owner_session_ids (db : DB) (owner : Int) : List Nat :=
  (db.sessions.filter (fun s => s.owner == owner)).map Session.id

/-- The number of messages stored in the owner's sessions (what
`health`'s total would be if it were owner-restricted; `Database.health`
does not compute this). -/
def owner_message_count (db : DB) (owner : Int) : Nat :=
  (db.messages.filter (fun m => (owner_session_ids db owner).contains m.sessionId)).length

/-!  ## Concrete states used by witnesses -/

/-- One active session (id 1) for owner 7. -/
def dbW1 : DB := (create_new_session DB.init 0 7).1

/-- `dbW1` plus a user message (id 1) at time 1. -/
def dbW2 : DB := (add_message dbW1 1 1 "user" "hi" none false).1

/-- `dbW2` plus a proactive assistant message (id 2) at time 2. -/
def dbW3 : DB := (add_message dbW2 2 1 "assistant" "hey" none true).1

/-- The active session row of owner 7 in `dbW1`/`dbW2`/`dbW3`. -/
def sessW : Session := ⟨1, 7, 0, true⟩

/-- The user message row (id 1) in `dbW2`/`dbW3`. -/
def msgW : Msg := ⟨1, 1, "user", "hi", 1, none, false⟩

/-- Two owners (7 and 8), one session each, one message in each session. -/
def dbTwoOwners : DB :=
  (add_message
    (add_message
      (create_new_session (create_new_session DB.init 0 7).1 0 8).1
      1 1 "user" "hi" none false).1
    2 2 "user" "hello" none false).1

/-- A proactive-enabled configuration for owner 7 with idle bounds 1h–3h. -/
def settingsW : Settings := ⟨7, true, 1, 3, 40, "prompt"⟩

/-- A generation contract that always fails (`LLMError`). -/
def genNone : LLMGen := fun _ => none

/-- A generation contract that always answers with a fixed text. -/
def genSome : LLMGen := fun _ => some ("hello", "meta")

/-!  ## Helper lemmas -/

/-- Taking from the reversed list and reversing back is taking the suffix. -/
lemma reverse_take_reverse {α : Type} (l : List α) (n : Nat) :
    (l.reverse.take n).reverse = l.drop (l.length - n) := by
  rw [← List.rtake_eq_reverse_take_reverse, List.rtake]

/-- `has_proactive_after` holds exactly when the session contains a
proactive assistant message with a strictly greater id. -/
lemma has_proactive_after_iff (db : DB) (sid mid : Nat) :
    has_proactive_after db sid mid = true ↔
      ∃ m ∈ db.messages, m.sessionId = sid ∧ m.role = "assistant" ∧
        m.isProactive = true ∧ mid < m.id := by
  simp [has_proactive_after, List.any_eq_true, and_assoc]

/-- Deactivating owner `o`'s sessions leaves no active session of `o`. -/
lemma filter_deactivate_self (l : List Session) (o : Int) :
    ((l.map (fun s => if s.owner == o && s.isActive then { s with isActive := false } else s)).filter
      (fun s => s.owner == o && s.isActive)) = [] := by
  induction l with
  | nil => rfl
  | cons s l ih =>
    by_cases hc : (s.owner == o && s.isActive) = true
    · simp only [List.map_cons, if_pos hc, List.filter_cons]
      simpa using ih
    · simp only [List.map_cons, if_neg hc, List.filter_cons, hc]
      simpa [hc] using ih

/-- Deactivating owner `o`'s sessions does not touch the active sessions
of a different owner. -/
lemma filter_deactivate_other (l : List Session) (o o' : Int) (h : o' ≠ o) :
    ((l.map (fun s => if s.owner == o && s.isActive then { s with isActive := false } else s)).filter
      (fun s => s.owner == o' && s.isActive)) =
    l.filter (fun s => s.owner == o' && s.isActive) := by
  induction l with
  | nil => rfl
  | cons s l ih =>
    by_cases hc : (s.owner == o && s.isActive) = true
    · have howner : s.owner = o := by
        have := (Bool.and_eq_true _ _).mp hc
        exact beq_iff_eq.mp this.1
      have hne : (s.owner == o') = false := by
        simp [howner, Ne.symm h]
      have hp : ((({ s with isActive := false } : Session).owner == o') &&
          ({ s with isActive := false } : Session).isActive) = false := by
        simp
      have hps : (s.owner == o' && s.isActive) = false := by rw [hne]; rfl
      simp only [List.map_cons, if_pos hc, List.filter_cons, hp]
      rw [if_neg Bool.false_ne_true, ih, hps, if_neg Bool.false_ne_true]
    · simp only [List.map_cons, if_neg hc, List.filter_cons]
      rw [ih]

/-- Effect of `create_new_session` on active-session counts: owner `o`
ends with exactly one active session, every other owner's count is
unchanged. -/
lemma activeCount_create (db : DB) (now : ℚ) (o o' : Int) :
    activeCount (create_new_session db now o).1 o' =
      if o' = o then 1 else activeCount db o' := by
  unfold activeCount create_new_session
  simp only [List.filter_append, List.length_append]
  by_cases h : o' = o
  · subst h
    rw [filter_deactivate_self]
    simp
  · rw [filter_deactivate_other db.sessions o o' h]
    have : ((⟨db.nextSessionId, o, now, true⟩ : Session).owner == o' &&
        (⟨db.nextSessionId, o, now, true⟩ : Session).isActive) = false := by
      simp [Ne.symm h]
    simp [h, List.filter_cons, this]

/-- Every reachable operation preserves `activeCount ≤ 1`. -/
lemma activeCount_applyOp_le (db : DB) (op : Op) (owner : Int)
    (h : activeCount db owner ≤ 1) : activeCount (applyOp db op) owner ≤ 1 := by
  cases op with
  | getOrCreate now o =>
    simp only [applyOp, get_or_create_active_session]
    cases hs : activeSession db o with
    | some s => simp only [hs]; exact h
    | none =>
      simp only [hs]
      rw [activeCount_create]
      by_cases ho : owner = o
      · rw [if_pos ho]
      · rw [if_neg ho]; exact h
  | startNew now o =>
    simp only [applyOp]
    rw [activeCount_create]
    by_cases ho : owner = o
    · rw [if_pos ho]
    · rw [if_neg ho]; exact h
  | append now sid role content meta pa =>
    simpa only [applyOp, add_message, activeCount] using h

/-- `activeCount ≤ 1` is preserved along any run of operations. -/
lemma activeCount_foldl_le (ops : List Op) (db : DB) (owner : Int)
    (h : activeCount db owner ≤ 1) : activeCount (ops.foldl applyOp db) owner ≤ 1 := by
  induction ops generalizing db with
  | nil => exact h
  | cons op ops ih => exact ih _ (activeCount_applyOp_le db op owner h)

/-!  ## Claims -/

/-- C1: for every message identifier and bounds with `minHours ≤ maxHours`,
the required-idle-threshold function returns `minHours * 3600` seconds when
the bounds coincide, and otherwise
`(minHours + (maxHours - minHours) * (((messageId * 2654435761) mod 1000) / 999)) * 3600`
seconds; being a Lean function of exactly these three arguments it is pure
and deterministic in them. -/
theorem C1_idle_threshold_formula (messageId : Nat) (minHours maxHours : ℚ)
    (h : minHours ≤ maxHours) :
    (minHours = maxHours →
      deterministic_idle_seconds messageId minHours maxHours = minHours * 3600) ∧
    (minHours ≠ maxHours →
      deterministic_idle_seconds messageId minHours maxHours =
        (minHours + (maxHours - minHours) *
          ((((messageId * 2654435761) % 1000 : ℕ) : ℚ) / 999)) * 3600) := by
  constructor
  · intro he
    simp [deterministic_idle_seconds, he]
  · intro hne
    simp [deterministic_idle_seconds, hne]

/-- Witness for C1 at `messageId = 5`, `minHours = 1`, `maxHours = 3`. -/
theorem C1_idle_threshold_formula_witness :
    (1 : ℚ) ≤ 3 ∧
    (((1 : ℚ) = 3 → deterministic_idle_seconds 5 1 3 = 1 * 3600) ∧
     ((1 : ℚ) ≠ 3 → deterministic_idle_seconds 5 1 3 =
        (1 + (3 - 1) * ((((5 * 2654435761) % 1000 : ℕ) : ℚ) / 999)) * 3600)) :=
  ⟨by norm_num, C1_idle_threshold_formula 5 1 3 (by norm_num)⟩

/-- C8: for `0 < minHours ≤ maxHours` the computed threshold lies between
`minHours * 3600` and `maxHours * 3600`, and equals `minHours * 3600`
exactly when the bounds coincide, regardless of the identifier. -/
theorem C8_threshold_bounds (messageId : Nat) (minHours maxHours : ℚ)
    (h0 : 0 < minHours) (h : minHours ≤ maxHours) :
    (minHours * 3600 ≤ deterministic_idle_seconds messageId minHours maxHours ∧
      deterministic_idle_seconds messageId minHours maxHours ≤ maxHours * 3600) ∧
    (minHours = maxHours →
      deterministic_idle_seconds messageId minHours maxHours = minHours * 3600) := by
  by_cases he : minHours = maxHours
  · subst he
    simp [deterministic_idle_seconds]
  · have hspan : 0 ≤ maxHours - minHours := by linarith
    have hlt : (messageId * 2654435761) % 1000 < 1000 := Nat.mod_lt _ (by norm_num)
    have hle : (((messageId * 2654435761) % 1000 : ℕ) : ℚ) ≤ 999 := by
      exact_mod_cast Nat.lt_succ_iff.mp hlt
    have hge : (0 : ℚ) ≤ (((messageId * 2654435761) % 1000 : ℕ) : ℚ) := Nat.cast_nonneg _
    have hratio0 : (0 : ℚ) ≤ (((messageId * 2654435761) % 1000 : ℕ) : ℚ) / 999 :=
      div_nonneg hge (by norm_num)
    have hratio1 : (((messageId * 2654435761) % 1000 : ℕ) : ℚ) / 999 ≤ 1 :=
      (div_le_one (by norm_num)).mpr hle
    refine ⟨⟨?_, ?_⟩, fun hc => absurd hc he⟩
    · simp only [deterministic_idle_seconds, if_neg he]
      nlinarith
    · simp only [deterministic_idle_seconds, if_neg he]
      nlinarith

/-- Witness for C8 at `messageId = 5`, `minHours = 1`, `maxHours = 3`. -/
theorem C8_threshold_bounds_witness :
    ((0 : ℚ) < 1 ∧ (1 : ℚ) ≤ 3) ∧
    (((1 : ℚ) * 3600 ≤ deterministic_idle_seconds 5 1 3 ∧
       deterministic_idle_seconds 5 1 3 ≤ 3 * 3600) ∧
     ((1 : ℚ) = 3 → deterministic_idle_seconds 5 1 3 = 1 * 3600)) :=
  ⟨⟨by norm_num, by norm_num⟩, C8_threshold_bounds 5 1 3 (by norm_num) (by norm_num)⟩

/-- C3: for every store state (hence for every sequence of appends) and
every limit, `get_context_messages` returns exactly the last
`min limit count` user/assistant messages of the session in chronological
order, where `count` is the number of such messages; when fewer than
`limit` exist all are returned (the drop count is then zero). -/
theorem C3_recent_context (db : DB) (sessionId limit : Nat) :
    get_context_messages db sessionId limit =
      ((context_pool db sessionId).drop ((context_pool db sessionId).length - limit)).map
        (fun m => ChatMessage.mk m.role m.content) ∧
    (get_context_messages db sessionId limit).length =
      min limit (context_pool db sessionId).length := by
  constructor
  · unfold get_context_messages
    rw [reverse_take_reverse]
  · unfold get_context_messages
    rw [List.length_map, List.length_reverse, List.length_take, List.length_reverse]

/-- C7: `has_proactive_after sessionId messageId` is true iff the session
contains a proactive assistant message with id strictly greater than
`messageId`; and immediately after a fresh user message (whose id exceeds
all existing message ids) it is false at that fresh id. -/
theorem C7_has_proactive_after (db : DB) (sessionId messageId : Nat) :
    (has_proactive_after db sessionId messageId = true ↔
      ∃ m ∈ db.messages, m.sessionId = sessionId ∧ m.role = "assistant" ∧
        m.isProactive = true ∧ messageId < m.id) ∧
    ((∀ m ∈ db.messages, m.id < db.nextMessageId) →
      ∀ (now : ℚ) (content : String) (meta : Option String),
        has_proactive_after
          (add_message db now sessionId "user" content meta false).1 sessionId
          (add_message db now sessionId "user" content meta false).2 = false) := by
  refine ⟨has_proactive_after_iff db sessionId messageId, ?_⟩
  intro hbound now content meta
  rw [Bool.eq_false_iff]
  intro htrue
  rw [has_proactive_after_iff] at htrue
  obtain ⟨m, hm, hsid, hrole, hpro, hlt⟩ := htrue
  simp only [add_message, List.mem_append, List.mem_singleton] at hm hlt
  rcases hm with hm | hm
  · have := hbound m hm
    omega
  · subst hm
    simp at hrole

/-- Witness for C7 at `dbW3` (ids 1, 2 present; counter at 3). -/
theorem C7_has_proactive_after_witness :
    (∀ m ∈ dbW3.messages, m.id < dbW3.nextMessageId) ∧
    has_proactive_after
      (add_message dbW3 3 1 "user" "again" none false).1 1
      (add_message dbW3 3 1 "user" "again" none false).2 = false :=
  ⟨by decide, (C7_has_proactive_after dbW3 1 0).2 (by decide) 3 "again" none⟩

/-- C5: along every sequence of `getOrCreate` / `startNew` / `append`
operations from a fresh store, each owner has at most one active session;
and two successive `startNew` calls return distinct session ids, after
which the owner has exactly one active session. -/
theorem C5_single_active_session (ops : List Op) (owner : Int) (now1 now2 : ℚ) :
    activeCount (runOps ops) owner ≤ 1 ∧
    (create_new_session (runOps ops) now1 owner).2 ≠
      (create_new_session (create_new_session (runOps ops) now1 owner).1 now2 owner).2 ∧
    activeCount
      (create_new_session (create_new_session (runOps ops) now1 owner).1 now2 owner).1
      owner = 1 := by
  refine ⟨?_, ?_, ?_⟩
  · exact activeCount_foldl_le ops DB.init owner (by simp [activeCount, DB.init])
  · simp [create_new_session]
  · rw [activeCount_create, if_pos rfl]

/-- C6: `create_new_session` discards no data: the messages table is
untouched, every existing session keeps its id, owner and creation
timestamp (the map projection is preserved and a session that was not the
owner's active one is kept verbatim), and the context window of the fresh
session is empty for every limit (given that, as in every reachable state,
no stored message references the not-yet-assigned session id). -/
theorem C6_start_new_discards_nothing (db : DB) (now : ℚ) (owner : Int)
    (hmid : ∀ m ∈ db.messages, m.sessionId < db.nextSessionId) :
    (create_new_session db now owner).1.messages = db.messages ∧
    (create_new_session db now owner).1.sessions.map (fun s => (s.id, s.owner, s.createdAt)) =
      db.sessions.map (fun s => (s.id, s.owner, s.createdAt)) ++
        [((create_new_session db now owner).2, owner, now)] ∧
    (∀ s ∈ db.sessions, ¬(s.owner = owner ∧ s.isActive = true) →
      s ∈ (create_new_session db now owner).1.sessions) ∧
    (∀ limit, get_context_messages (create_new_session db now owner).1
        (create_new_session db now owner).2 limit = []) := by
  refine ⟨rfl, ?_, ?_, ?_⟩
  · simp only [create_new_session, List.map_append, List.map_map, List.map_cons, List.map_nil]
    congr 1
    apply List.map_congr_left
    intro s _
    dsimp only [Function.comp]
    split <;> rfl
  · intro s hs hns
    have hfs : (if s.owner == owner && s.isActive
        then { s with isActive := false } else s) = s := by
      rw [if_neg]
      intro hct
      exact hns (by simpa using hct)
    simp only [create_new_session]
    exact List.mem_append_left _ (hfs ▸ List.mem_map_of_mem _ hs)
  · intro limit
    have hpool : context_pool (create_new_session db now owner).1
        (create_new_session db now owner).2 = [] := by
      unfold context_pool create_new_session
      rw [List.filter_eq_nil_iff]
      intro m hm
      have hlt := hmid m hm
      simp [Nat.ne_of_lt hlt]
    simp [get_context_messages, hpool]

/-- Witness for C6 at `dbW3` with `now = 5`, owner 7. -/
theorem C6_start_new_discards_nothing_witness :
    (∀ m ∈ dbW3.messages, m.sessionId < dbW3.nextSessionId) ∧
    ((create_new_session dbW3 5 7).1.messages = dbW3.messages ∧
     (create_new_session dbW3 5 7).1.sessions.map (fun s => (s.id, s.owner, s.createdAt)) =
       dbW3.sessions.map (fun s => (s.id, s.owner, s.createdAt)) ++
         [((create_new_session dbW3 5 7).2, 7, 5)] ∧
     (∀ s ∈ dbW3.sessions, ¬(s.owner = 7 ∧ s.isActive = true) →
       s ∈ (create_new_session dbW3 5 7).1.sessions) ∧
     (∀ limit, get_context_messages (create_new_session dbW3 5 7).1
         (create_new_session dbW3 5 7).2 limit = [])) :=
  ⟨by decide, C6_start_new_discards_nothing dbW3 5 7 (by decide)⟩

/-- C10: the `totalMessages` field of the health snapshot counts every
message in the store, across all sessions and owners: it always equals the
length of the whole messages table, and on a store with two owners holding
one message each it reports 2 even though each owner's sessions hold 1. -/
theorem C10_total_message_count_global (db : DB) (owner : Int) :
    (health db owner).totalMessages = db.messages.length ∧
    ((health dbTwoOwners 7).totalMessages = 2 ∧
      owner_message_count dbTwoOwners 7 = 1 ∧
      owner_message_count dbTwoOwners 8 = 1 ∧
      dbTwoOwners.messages.length = 2) := by
  refine ⟨?_, by decide⟩
  unfold health
  cases hh : activeSession db owner <;> rfl

/-- C2: once the active session holds a proactive assistant message with id
greater than the last user message's id, a proactive tick leaves the store
unchanged and sends nothing — for any clock and any generation contract
— so every subsequent tick (the store being unchanged) also does nothing
until a new user message changes `get_last_user_message`. -/
theorem C2_at_most_one_proactive (settings : Settings) (db : DB) (now : ℚ) (gen : LLMGen)
    (s : Session) (u : Msg)
    (hs : activeSession db settings.ownerTelegramId = some s)
    (hu : get_last_user_message db s.id = some u)
    (hp : has_proactive_after db s.id u.id = true) :
    proactive_check_job settings db now gen = (db, none) := by
  cases he : settings.autoMessageEnabled
  · simp [proactive_check_job, he]
  · simp [proactive_check_job, get_or_create_active_session, he, hs, hu, hp]

/-- Witness for C2 at `dbW3` (proactive message id 2 after user message
id 1), `now = 5`. -/
theorem C2_at_most_one_proactive_witness :
    (activeSession dbW3 settingsW.ownerTelegramId = some sessW ∧
     get_last_user_message dbW3 sessW.id = some msgW ∧
     has_proactive_after dbW3 sessW.id msgW.id = true) ∧
    proactive_check_job settingsW dbW3 5 genNone = (dbW3, none) :=
  ⟨⟨by decide, by decide, by decide⟩,
    C2_at_most_one_proactive settingsW dbW3 5 genNone sessW msgW
      (by decide) (by decide) (by decide)⟩

/-- C4 counterexample: on a store with no session at all, an enabled
proactive tick does change the store — `get_or_create_active_session`
creates a fresh session — contradicting "the persistent store is left
completely unchanged (in particular, no session is created)". -/
theorem C4_counterexample :
    ¬ (proactive_check_job settingsW DB.init 0 genNone).1 = DB.init := by
  decide

/-- C4 (amended): on an enabled proactive tick, if the active session
exists but holds no user message the tick does nothing and the store is
completely unchanged; if no active session exists, the tick creates one
(the only store change — the messages table is untouched), persists no
message and sends nothing. -/
theorem C4_no_user_message_tick_noop (settings : Settings) (db : DB) (now : ℚ) (gen : LLMGen)
    (henabled : settings.autoMessageEnabled = true) :
    (∀ s, activeSession db settings.ownerTelegramId = some s →
      get_last_user_message db s.id = none →
      proactive_check_job settings db now gen = (db, none)) ∧
    (activeSession db settings.ownerTelegramId = none →
      (∀ m ∈ db.messages, m.sessionId < db.nextSessionId) →
      proactive_check_job settings db now gen =
        ((create_new_session db now settings.ownerTelegramId).1, none) ∧
      (create_new_session db now settings.ownerTelegramId).1.messages = db.messages) := by
  constructor
  · intro s hs hu
    simp [proactive_check_job, get_or_create_active_session, henabled, hs, hu]
  · intro hs hmid
    have hlu : get_last_user_message (create_new_session db now settings.ownerTelegramId).1
        (create_new_session db now settings.ownerTelegramId).2 = none := by
      unfold get_last_user_message create_new_session
      rw [show (List.filter (fun m => m.sessionId == db.nextSessionId && m.role == "user")
          db.messages) = [] from ?_]
      · rfl
      · rw [List.filter_eq_nil_iff]
        intro m hm
        have hlt := hmid m hm
        simp [Nat.ne_of_lt hlt]
    refine ⟨?_, rfl⟩
    simp [proactive_check_job, get_or_create_active_session, henabled, hs, hlu]

/-- Witness for C4 (amended) at `dbW1` (a session, no message); the
no-active-session implication is applied to `DB.init` through the same
theorem instance being universally true in `db`, so the witness
instantiates the session case. -/
theorem C4_no_user_message_tick_noop_witness :
    settingsW.autoMessageEnabled = true ∧
    ((∀ s, activeSession dbW1 settingsW.ownerTelegramId = some s →
        get_last_user_message dbW1 s.id = none →
        proactive_check_job settingsW dbW1 3 genNone = (dbW1, none)) ∧
     (activeSession dbW1 settingsW.ownerTelegramId = none →
        (∀ m ∈ dbW1.messages, m.sessionId < dbW1.nextSessionId) →
        proactive_check_job settingsW dbW1 3 genNone =
          ((create_new_session dbW1 3 settingsW.ownerTelegramId).1, none) ∧
        (create_new_session dbW1 3 settingsW.ownerTelegramId).1.messages = dbW1.messages)) :=
  ⟨rfl, C4_no_user_message_tick_noop settingsW dbW1 3 genNone rfl⟩

/-- C9: if the threshold is met but generation fails, the tick aborts with
the store unchanged and nothing delivered; a later tick on the unchanged
store recomputes the very same threshold (the same pure function of the
same message id and bounds) and, once generation succeeds, fires from
scratch. -/
theorem C9_generation_failure_aborts (settings : Settings) (db : DB) (now later : ℚ)
    (gen gen2 : LLMGen) (s : Session) (u : Msg) (t m : String)
    (henabled : settings.autoMessageEnabled = true)
    (hs : activeSession db settings.ownerTelegramId = some s)
    (hu : get_last_user_message db s.id = some u)
    (hp : has_proactive_after db s.id u.id = false)
    (hidle : deterministic_idle_seconds u.id settings.idleHoursMin settings.idleHoursMax ≤
      now - u.createdAt)
    (hgen : gen (proactive_prompt settings db s.id) = none)
    (hlater : deterministic_idle_seconds u.id settings.idleHoursMin settings.idleHoursMax ≤
      later - u.createdAt)
    (hgen2 : gen2 (proactive_prompt settings db s.id) = some (t, m)) :
    proactive_check_job settings db now gen = (db, none) ∧
    proactive_check_job settings db later gen2 =
      ((add_message db later s.id "assistant" t (some m) true).1, some t) := by
  constructor
  · simp [proactive_check_job, get_or_create_active_session, henabled, hs, hu, hp,
      not_lt.mpr hidle, hgen]
  · simp [proactive_check_job, get_or_create_active_session, add_message, henabled, hs, hu, hp,
      not_lt.mpr hlater, hgen2]

/-- Witness for C9 at `dbW2` (user message id 1 at time 1, no proactive
message): the failing tick at `now = 10001` and the succeeding tick at
`later = 20001`. -/
theorem C9_generation_failure_aborts_witness :
    (settingsW.autoMessageEnabled = true ∧
     activeSession dbW2 settingsW.ownerTelegramId = some sessW ∧
     get_last_user_message dbW2 sessW.id = some msgW ∧
     has_proactive_after dbW2 sessW.id msgW.id = false ∧
     deterministic_idle_seconds msgW.id settingsW.idleHoursMin settingsW.idleHoursMax ≤
       10001 - msgW.createdAt ∧
     genNone (proactive_prompt settingsW dbW2 sessW.id) = none ∧
     deterministic_idle_seconds msgW.id settingsW.idleHoursMin settingsW.idleHoursMax ≤
       20001 - msgW.createdAt ∧
     genSome (proactive_prompt settingsW dbW2 sessW.id) = some ("hello", "meta")) ∧
    (proactive_check_job settingsW dbW2 10001 genNone = (dbW2, none) ∧
     proactive_check_job settingsW dbW2 20001 genSome =
       ((add_message dbW2 20001 sessW.id "assistant" "hello" (some "meta") true).1,
         some "hello")) :=
  ⟨⟨rfl, by decide, by decide, by decide,
      by norm_num [deterministic_idle_seconds, msgW, settingsW], rfl,
      by norm_num [deterministic_idle_seconds, msgW, settingsW], rfl⟩,
    C9_generation_failure_aborts settingsW dbW2 10001 20001 genNone genSome sessW msgW
      "hello" "meta" rfl (by decide) (by decide) (by decide)
      (by norm_num [deterministic_idle_seconds, msgW, settingsW]) rfl
      (by norm_num [deterministic_idle_seconds, msgW, settingsW]) rfl⟩

end TgBot
